import Mathlib

/-!
# Verification of the `muses` virtual mixing console (src/src/index.ts)

A shallow embedding of the core of the library: the mixer / channel /
track data model, the graph-wiring operations, and the timer-driven fade
state machine.  JavaScript numbers are modelled as exact rationals (`ℚ`);
JavaScript's `null`/`undefined` results are modelled with `Option`.

Each definition is translated from the TypeScript source:

* `FadeState`, `fadeOutTick`, `fadeInTick`, `fadeOutRun`, `fadeInRun`
  embed the `setInterval` callbacks of `AudioChannel.fadeOut` /
  `AudioChannel.fadeIn` (index.ts lines 276–307).  One application of the
  tick function corresponds to one firing of the 2 ms periodic timer;
  `timerActive = false` models a cleared interval, `resolved = true`
  models the promise having resolved with `true`.
* `AudioChannel`, `AudioChannel.setMuted`, `AudioChannel.setVolume`, …
  embed the scalar parameters of the channel's processing units and
  their getter/setter proxies (lines 127–273).
* `AudioMixer.addChannel` / `AudioMixer.getChannel` embed lines 39–53,
  including the JavaScript truthiness test `id || default` (the empty
  string is falsy) and the `findIndex` / `channels[i] || null` lookup.
* `MusesGraph` / `trackOutput` embed `AudioTrack.output` (lines 355–361):
  per-channel `tracks` arrays and each track's `sourceNode` receiver
  list (`disconnect()` clears it, `connect(channel.inputNode)` adds the
  channel).
* `ChannelFades` / `startFade` embed the timer bookkeeping of a fade
  call: `setInterval` registers a fresh periodic timer and the source
  stores its handle only in a local (`const int`), so a later fade call
  has no reference to—and never clears—an earlier timer.
-/

namespace Muses

/-- The per-tick step of a fade: `const vpc : number = ( 2 / ms ) * 10`
(index.ts lines 280 and 297). -/
def fadeVpc (ms : ℚ) : ℚ := (2 / ms) * 10

/-- State of one fade state machine: the channel's pre-fade input gain
(`inputNode.gain.value`), whether the periodic interval is still
scheduled, and whether the promise has resolved (with `true`). -/
structure FadeState where
  gain : ℚ
  timerActive : Bool
  resolved : Bool
  deriving Repr, DecidableEq

/-- Initial state of a fade started while the pre-fade gain is `g`:
the interval has just been scheduled, the promise is pending. -/
def FadeState.start (g : ℚ) : FadeState :=
  { gain := g, timerActive := true, resolved := false }

/-- One firing of the `fadeOut` interval callback (index.ts 281–288):
```
if( channel.inputNode.gain.value <= 0 ) {
  channel.inputNode.gain.value = 0 ;
  clearInterval( int ) ;
  return res( true ) ;
}
channel.inputNode.gain.value -= vpc ;
```
A cleared interval never fires again, so the tick is the identity on
inactive states. -/
def fadeOutTick (vpc : ℚ) (s : FadeState) : FadeState :=
  if s.timerActive then
    if s.gain ≤ 0 then
      { gain := 0, timerActive := false, resolved := true }
    else
      { s with gain := s.gain - vpc }
  else s

/-- One firing of the `fadeIn` interval callback (index.ts 298–305):
boundary test `>= 1`, snap to `1`, otherwise `+= vpc`. -/
def fadeInTick (vpc : ℚ) (s : FadeState) : FadeState :=
  if s.timerActive then
    if 1 ≤ s.gain then
      { gain := 1, timerActive := false, resolved := true }
    else
      { s with gain := s.gain + vpc }
  else s

/-- The fade-out machine after `n` firings of its 2 ms interval, started
from pre-fade gain `g`. -/
def fadeOutRun (vpc g : ℚ) : ℕ → FadeState
  | 0 => FadeState.start g
  | n + 1 => fadeOutTick vpc (fadeOutRun vpc g n)

/-- The fade-in machine after `n` firings of its 2 ms interval. -/
def fadeInRun (vpc g : ℚ) : ℕ → FadeState
  | 0 => FadeState.start g
  | n + 1 => fadeInTick vpc (fadeInRun vpc g n)

/-- If the fade-out machine has resolved, its state is the terminal one:
gain snapped to `0`, interval cleared. -/
lemma fadeOutRun_resolved (vpc g : ℚ) :
    ∀ n, (fadeOutRun vpc g n).resolved = true →
      (fadeOutRun vpc g n).gain = 0 ∧ (fadeOutRun vpc g n).timerActive = false := by
  intro n
  induction n with
  | zero => intro h; simp [fadeOutRun, FadeState.start] at h
  | succ n ih =>
    intro h
    simp only [fadeOutRun, fadeOutTick] at h ⊢
    by_cases hact : (fadeOutRun vpc g n).timerActive
    · by_cases hg : (fadeOutRun vpc g n).gain ≤ 0
      · simp [hact, hg]
      · simp [hact, hg] at h ⊢
        exact absurd (ih h).2 (by simp [hact])
    · simp [hact] at h ⊢
      exact (ih h).1

/-- Same for fade-in: resolved implies gain snapped to `1`, interval cleared. -/
lemma fadeInRun_resolved (vpc g : ℚ) :
    ∀ n, (fadeInRun vpc g n).resolved = true →
      (fadeInRun vpc g n).gain = 1 ∧ (fadeInRun vpc g n).timerActive = false := by
  intro n
  induction n with
  | zero => intro h; simp [fadeInRun, FadeState.start] at h
  | succ n ih =>
    intro h
    simp only [fadeInRun, fadeInTick] at h ⊢
    by_cases hact : (fadeInRun vpc g n).timerActive
    · by_cases hg : (1 : ℚ) ≤ (fadeInRun vpc g n).gain
      · simp [hact, hg]
      · simp [hact, hg] at h ⊢
        exact absurd (ih h).2 (by simp [hact])
    · simp [hact] at h ⊢
      exact (ih h).1

/-- An inactive (cleared) fade-out state is frozen. -/
lemma fadeOutTick_inactive (vpc : ℚ) (s : FadeState)
    (h : s.timerActive = false) : fadeOutTick vpc s = s := by
  simp [fadeOutTick, h]

/-- An inactive (cleared) fade-in state is frozen. -/
lemma fadeInTick_inactive (vpc : ℚ) (s : FadeState)
    (h : s.timerActive = false) : fadeInTick vpc s = s := by
  simp [fadeInTick, h]

/-- **C1.** For every duration `ms` and every starting gain, once the
`fadeOut` promise has resolved (after some number `n` of timer firings)
the channel's pre-fade input gain equals exactly `0`, the periodic
interval has been cleared, and the state stays frozen forever after; and
once the `fadeIn` promise has resolved the gain equals exactly `1`, the
interval has been cleared, and the state stays frozen.  Resolution is
always the successful `res(true)`—the fade callbacks never reject. -/
theorem fade_resolved_boundary (ms gOut gIn : ℚ) (n m : ℕ)
    (hOut : (fadeOutRun (fadeVpc ms) gOut n).resolved = true)
    (hIn : (fadeInRun (fadeVpc ms) gIn m).resolved = true) :
    (fadeOutRun (fadeVpc ms) gOut n).gain = 0 ∧
    (fadeOutRun (fadeVpc ms) gOut n).timerActive = false ∧
    (∀ k, fadeOutRun (fadeVpc ms) gOut (n + k) = fadeOutRun (fadeVpc ms) gOut n) ∧
    (fadeInRun (fadeVpc ms) gIn m).gain = 1 ∧
    (fadeInRun (fadeVpc ms) gIn m).timerActive = false ∧
    (∀ k, fadeInRun (fadeVpc ms) gIn (m + k) = fadeInRun (fadeVpc ms) gIn m) := by
  obtain ⟨hg1, ht1⟩ := fadeOutRun_resolved (fadeVpc ms) gOut n hOut
  obtain ⟨hg2, ht2⟩ := fadeInRun_resolved (fadeVpc ms) gIn m hIn
  refine ⟨hg1, ht1, ?_, hg2, ht2, ?_⟩
  · intro k
    induction k with
    | zero => rfl
    | succ k ih =>
      have : n + (k + 1) = (n + k) + 1 := by omega
      rw [this]
      show fadeOutTick (fadeVpc ms) (fadeOutRun (fadeVpc ms) gOut (n + k)) = _
      rw [ih, fadeOutTick_inactive _ _ ht1]
  · intro k
    induction k with
    | zero => rfl
    | succ k ih =>
      have : m + (k + 1) = (m + k) + 1 := by omega
      rw [this]
      show fadeInTick (fadeVpc ms) (fadeInRun (fadeVpc ms) gIn (m + k)) = _
      rw [ih, fadeInTick_inactive _ _ ht2]

/-- Witness for C1: with `ms = 20` (so `vpc = 1`), a fade-out from gain
`1` resolves after 2 ticks at gain exactly `0`, and a fade-in from gain
`0` resolves after 2 ticks at gain exactly `1`. -/
theorem fade_resolved_boundary_witness :
    (fadeOutRun (fadeVpc 20) 1 2).resolved = true ∧
    (fadeInRun (fadeVpc 20) 0 2).resolved = true ∧
    ((fadeOutRun (fadeVpc 20) 1 2).gain = 0 ∧
     (fadeOutRun (fadeVpc 20) 1 2).timerActive = false ∧
     (∀ k, fadeOutRun (fadeVpc 20) 1 (2 + k) = fadeOutRun (fadeVpc 20) 1 2) ∧
     (fadeInRun (fadeVpc 20) 0 2).gain = 1 ∧
     (fadeInRun (fadeVpc 20) 0 2).timerActive = false ∧
     (∀ k, fadeInRun (fadeVpc 20) 0 (2 + k) = fadeInRun (fadeVpc 20) 0 2)) :=
  ⟨by norm_num [fadeOutRun, fadeOutTick, FadeState.start, fadeVpc],
   by norm_num [fadeInRun, fadeInTick, FadeState.start, fadeVpc],
   fade_resolved_boundary 20 1 0 2 2
     (by norm_num [fadeOutRun, fadeOutTick, FadeState.start, fadeVpc])
     (by norm_num [fadeInRun, fadeInTick, FadeState.start, fadeVpc])⟩

/-- The step of a fade with a positive duration is positive:
`fadeVpc ms = (2/ms)*10`. -/
lemma fadeVpc_pos {ms : ℚ} (hms : 0 < ms) : 0 < fadeVpc ms := by
  unfold fadeVpc; positivity

/-- Range invariant of a fade-out run: starting from `g0 ≥ 0` with a
positive step, every sampled gain lies in the interval `(-vpc, g0]` —
the run may overshoot `0` by strictly less than one step, and never
exceeds its starting value. -/
lemma fadeOutRun_bounds (vpc g0 : ℚ) (hv : 0 < vpc) (h0 : 0 ≤ g0) :
    ∀ n, -vpc < (fadeOutRun vpc g0 n).gain ∧ (fadeOutRun vpc g0 n).gain ≤ g0 := by
  intro n
  induction n with
  | zero => constructor <;> simp [fadeOutRun, FadeState.start] <;> linarith
  | succ n ih =>
    simp only [fadeOutRun, fadeOutTick]
    by_cases hact : (fadeOutRun vpc g0 n).timerActive
    · by_cases hg : (fadeOutRun vpc g0 n).gain ≤ 0
      · simp [hact, hg]; constructor <;> linarith
      · push_neg at hg
        simp [hact, not_le.mpr hg]
        constructor <;> linarith [ih.1, ih.2]
    · simp [hact]; exact ih

/-- Range invariant of a fade-in run: starting from `g0 ≤ 1` with a
positive step, every sampled gain lies in `[g0, 1 + vpc)`. -/
lemma fadeInRun_bounds (vpc g0 : ℚ) (hv : 0 < vpc) (h1 : g0 ≤ 1) :
    ∀ n, g0 ≤ (fadeInRun vpc g0 n).gain ∧ (fadeInRun vpc g0 n).gain < 1 + vpc := by
  intro n
  induction n with
  | zero => constructor <;> simp [fadeInRun, FadeState.start] <;> linarith
  | succ n ih =>
    simp only [fadeInRun, fadeInTick]
    by_cases hact : (fadeInRun vpc g0 n).timerActive
    · by_cases hg : (1 : ℚ) ≤ (fadeInRun vpc g0 n).gain
      · simp [hact, hg]; constructor <;> linarith
      · push_neg at hg
        simp [hact, not_le.mpr hg]
        constructor <;> linarith [ih.1, ih.2]
    · simp [hact]; exact ih

/-- **C3 counterexample.** The claim "the gain never takes a value
outside `[0,1]` during the fade" is false: with `ms = 2000`
(`step = (2/2000)*10 = 1/100`) and starting gain `1/200 ∈ [0,1]`, after
the first tick of `fadeOut` the pre-fade input gain is `-1/200 < 0`,
while the interval is still running (the fade is still in flight): the
decrement is applied before the boundary test of the next tick, so the
gain transiently overshoots the boundary. -/
theorem fadeOut_gain_escapes_unit_interval :
    (fadeOutRun (fadeVpc 2000) (1 / 200) 1).gain = -(1 / 200) ∧
    (fadeOutRun (fadeVpc 2000) (1 / 200) 1).gain < 0 ∧
    (fadeOutRun (fadeVpc 2000) (1 / 200) 1).timerActive = true := by
  norm_num [fadeOutRun, fadeOutTick, FadeState.start, fadeVpc]

/-- **C3 (amended).** An active fade changes the pre-fade input gain by
exactly `step = (2/ms)*10` per 2 ms tick — subtracted by `fadeOut`,
added by `fadeIn` — and the gain is snapped to the boundary (`0` for
fade-out, `1` for fade-in) on the tick after it crosses the boundary;
consequently the gain may transiently overshoot the boundary by strictly
less than one step: during a fade-out from `g0 ∈ [0,1]` every sampled
gain lies in `(-step, g0]`, and during a fade-in from `g1 ∈ [0,1]` every
sampled gain lies in `[g1, 1 + step)`. -/
theorem fade_step_clamp (ms g0 g1 : ℚ) (n : ℕ) (hms : 0 < ms)
    (h00 : 0 ≤ g0) (h01 : g0 ≤ 1) (h10 : 0 ≤ g1) (h11 : g1 ≤ 1) :
    ((fadeOutRun (fadeVpc ms) g0 n).timerActive = true →
      0 < (fadeOutRun (fadeVpc ms) g0 n).gain →
      (fadeOutRun (fadeVpc ms) g0 (n + 1)).gain
        = (fadeOutRun (fadeVpc ms) g0 n).gain - (2 / ms) * 10) ∧
    ((fadeOutRun (fadeVpc ms) g0 n).timerActive = true →
      (fadeOutRun (fadeVpc ms) g0 n).gain ≤ 0 →
      (fadeOutRun (fadeVpc ms) g0 (n + 1)).gain = 0) ∧
    (-(fadeVpc ms) < (fadeOutRun (fadeVpc ms) g0 n).gain ∧
      (fadeOutRun (fadeVpc ms) g0 n).gain ≤ g0) ∧
    ((fadeInRun (fadeVpc ms) g1 n).timerActive = true →
      (fadeInRun (fadeVpc ms) g1 n).gain < 1 →
      (fadeInRun (fadeVpc ms) g1 (n + 1)).gain
        = (fadeInRun (fadeVpc ms) g1 n).gain + (2 / ms) * 10) ∧
    ((fadeInRun (fadeVpc ms) g1 n).timerActive = true →
      1 ≤ (fadeInRun (fadeVpc ms) g1 n).gain →
      (fadeInRun (fadeVpc ms) g1 (n + 1)).gain = 1) ∧
    (g1 ≤ (fadeInRun (fadeVpc ms) g1 n).gain ∧
      (fadeInRun (fadeVpc ms) g1 n).gain < 1 + fadeVpc ms) := by
  have hv := fadeVpc_pos hms
  refine ⟨?_, ?_, fadeOutRun_bounds _ _ hv h00 n, ?_, ?_,
    fadeInRun_bounds _ _ hv h11 n⟩
  · intro hact hg
    show (fadeOutTick (fadeVpc ms) (fadeOutRun (fadeVpc ms) g0 n)).gain = _
    simp [fadeOutTick, hact, not_le.mpr hg]
    unfold fadeVpc
    ring
  · intro hact hg
    show (fadeOutTick (fadeVpc ms) (fadeOutRun (fadeVpc ms) g0 n)).gain = _
    simp [fadeOutTick, hact, hg]
  · intro hact hg
    show (fadeInTick (fadeVpc ms) (fadeInRun (fadeVpc ms) g1 n)).gain = _
    simp [fadeInTick, hact, not_le.mpr hg]
    unfold fadeVpc
    ring
  · intro hact hg
    show (fadeInTick (fadeVpc ms) (fadeInRun (fadeVpc ms) g1 n)).gain = _
    simp [fadeInTick, hact, hg]

/-- Witness for the amended C3, at `ms = 20`, `g0 = 1`, `g1 = 0`,
tick `0`. -/
theorem fade_step_clamp_witness :
    (0 : ℚ) < 20 ∧ (0 : ℚ) ≤ 1 ∧ (1 : ℚ) ≤ 1 ∧ (0 : ℚ) ≤ 0 ∧ (0 : ℚ) ≤ 1 ∧
    (((fadeOutRun (fadeVpc 20) 1 0).timerActive = true →
       0 < (fadeOutRun (fadeVpc 20) 1 0).gain →
       (fadeOutRun (fadeVpc 20) 1 1).gain
         = (fadeOutRun (fadeVpc 20) 1 0).gain - (2 / 20) * 10) ∧
     ((fadeOutRun (fadeVpc 20) 1 0).timerActive = true →
       (fadeOutRun (fadeVpc 20) 1 0).gain ≤ 0 →
       (fadeOutRun (fadeVpc 20) 1 1).gain = 0) ∧
     (-(fadeVpc 20) < (fadeOutRun (fadeVpc 20) 1 0).gain ∧
       (fadeOutRun (fadeVpc 20) 1 0).gain ≤ 1) ∧
     ((fadeInRun (fadeVpc 20) 0 0).timerActive = true →
       (fadeInRun (fadeVpc 20) 0 0).gain < 1 →
       (fadeInRun (fadeVpc 20) 0 1).gain
         = (fadeInRun (fadeVpc 20) 0 0).gain + (2 / 20) * 10) ∧
     ((fadeInRun (fadeVpc 20) 0 0).timerActive = true →
       1 ≤ (fadeInRun (fadeVpc 20) 0 0).gain →
       (fadeInRun (fadeVpc 20) 0 1).gain = 1) ∧
     (0 ≤ (fadeInRun (fadeVpc 20) 0 0).gain ∧
       (fadeInRun (fadeVpc 20) 0 0).gain < 1 + fadeVpc 20)) :=
  ⟨by norm_num, by norm_num, le_refl 1, le_refl 0, by norm_num,
   fade_step_clamp 20 1 0 0 (by norm_num) (by norm_num) (le_refl 1)
     (le_refl 0) (by norm_num)⟩

/-- **C4 counterexample.** Sampled gains during an in-flight fade are
not monotone: with `ms = 2000` and starting gain `1/200`, the fade-out
samples go `1/200, -1/200, 0` — the sample after tick 2 is strictly
greater than the sample after tick 1 while the fade was still in flight
entering tick 2.  Dually, a fade-in from `199/200` samples
`199/200, 201/200, 1` — a strict decrease between ticks 1 and 2. -/
theorem fade_samples_not_monotone :
    ((fadeOutRun (fadeVpc 2000) (1 / 200) 1).timerActive = true ∧
     (fadeOutRun (fadeVpc 2000) (1 / 200) 1).gain
       < (fadeOutRun (fadeVpc 2000) (1 / 200) 2).gain) ∧
    ((fadeInRun (fadeVpc 2000) (199 / 200) 1).timerActive = true ∧
     (fadeInRun (fadeVpc 2000) (199 / 200) 2).gain
       < (fadeInRun (fadeVpc 2000) (199 / 200) 1).gain) := by
  norm_num [fadeOutRun, fadeInRun, fadeOutTick, fadeInTick,
    FadeState.start, fadeVpc]

/-- **C4 (amended).** During an active fade-out the sampled gains are
non-increasing on every tick up to the boundary crossing; the single
terminal snap tick may move the gain back up to the boundary `0`, by
strictly less than one step.  Dually, during an active fade-in the
samples are non-decreasing up to the crossing, and the terminal snap
may move the gain back down to `1`, by strictly less than one step. -/
theorem fade_monotone (ms g0 g1 : ℚ) (n : ℕ) (hms : 0 < ms)
    (h00 : 0 ≤ g0) (h01 : g0 ≤ 1) (h10 : 0 ≤ g1) (h11 : g1 ≤ 1) :
    ((fadeOutRun (fadeVpc ms) g0 n).timerActive = true →
      0 < (fadeOutRun (fadeVpc ms) g0 n).gain →
      (fadeOutRun (fadeVpc ms) g0 (n + 1)).gain
        ≤ (fadeOutRun (fadeVpc ms) g0 n).gain) ∧
    ((fadeOutRun (fadeVpc ms) g0 n).timerActive = true →
      (fadeOutRun (fadeVpc ms) g0 n).gain ≤ 0 →
      (fadeOutRun (fadeVpc ms) g0 (n + 1)).gain = 0 ∧
      (fadeOutRun (fadeVpc ms) g0 (n + 1)).gain
        - (fadeOutRun (fadeVpc ms) g0 n).gain < fadeVpc ms) ∧
    ((fadeInRun (fadeVpc ms) g1 n).timerActive = true →
      (fadeInRun (fadeVpc ms) g1 n).gain < 1 →
      (fadeInRun (fadeVpc ms) g1 n).gain
        ≤ (fadeInRun (fadeVpc ms) g1 (n + 1)).gain) ∧
    ((fadeInRun (fadeVpc ms) g1 n).timerActive = true →
      1 ≤ (fadeInRun (fadeVpc ms) g1 n).gain →
      (fadeInRun (fadeVpc ms) g1 (n + 1)).gain = 1 ∧
      (fadeInRun (fadeVpc ms) g1 n).gain
        - (fadeInRun (fadeVpc ms) g1 (n + 1)).gain < fadeVpc ms) := by
  have hv := fadeVpc_pos hms
  have hOut := fadeOutRun_bounds (fadeVpc ms) g0 hv h00 n
  have hIn := fadeInRun_bounds (fadeVpc ms) g1 hv h11 n
  refine ⟨?_, ?_, ?_, ?_⟩
  · intro hact hg
    show (fadeOutTick (fadeVpc ms) (fadeOutRun (fadeVpc ms) g0 n)).gain ≤ _
    simp [fadeOutTick, hact, not_le.mpr hg]
    linarith
  · intro hact hg
    have hsnap :
        (fadeOutTick (fadeVpc ms) (fadeOutRun (fadeVpc ms) g0 n)).gain = 0 := by
      simp [fadeOutTick, hact, hg]
    refine ⟨hsnap, ?_⟩
    show (fadeOutTick (fadeVpc ms) (fadeOutRun (fadeVpc ms) g0 n)).gain - _ < _
    rw [hsnap]
    linarith [hOut.1]
  · intro hact hg
    show _ ≤ (fadeInTick (fadeVpc ms) (fadeInRun (fadeVpc ms) g1 n)).gain
    simp [fadeInTick, hact, not_le.mpr hg]
    linarith
  · intro hact hg
    have hsnap :
        (fadeInTick (fadeVpc ms) (fadeInRun (fadeVpc ms) g1 n)).gain = 1 := by
      simp [fadeInTick, hact, hg]
    refine ⟨hsnap, ?_⟩
    show _ - (fadeInTick (fadeVpc ms) (fadeInRun (fadeVpc ms) g1 n)).gain < _
    rw [hsnap]
    linarith [hIn.2]

/-- Witness for the amended C4, at `ms = 20`, `g0 = 1`, `g1 = 0`,
tick `0`. -/
theorem fade_monotone_witness :
    (0 : ℚ) < 20 ∧
    (((fadeOutRun (fadeVpc 20) 1 0).timerActive = true →
       0 < (fadeOutRun (fadeVpc 20) 1 0).gain →
       (fadeOutRun (fadeVpc 20) 1 1).gain ≤ (fadeOutRun (fadeVpc 20) 1 0).gain) ∧
     ((fadeOutRun (fadeVpc 20) 1 0).timerActive = true →
       (fadeOutRun (fadeVpc 20) 1 0).gain ≤ 0 →
       (fadeOutRun (fadeVpc 20) 1 1).gain = 0 ∧
       (fadeOutRun (fadeVpc 20) 1 1).gain
         - (fadeOutRun (fadeVpc 20) 1 0).gain < fadeVpc 20) ∧
     ((fadeInRun (fadeVpc 20) 0 0).timerActive = true →
       (fadeInRun (fadeVpc 20) 0 0).gain < 1 →
       (fadeInRun (fadeVpc 20) 0 0).gain ≤ (fadeInRun (fadeVpc 20) 0 1).gain) ∧
     ((fadeInRun (fadeVpc 20) 0 0).timerActive = true →
       1 ≤ (fadeInRun (fadeVpc 20) 0 0).gain →
       (fadeInRun (fadeVpc 20) 0 1).gain = 1 ∧
       (fadeInRun (fadeVpc 20) 0 0).gain
         - (fadeInRun (fadeVpc 20) 0 1).gain < fadeVpc 20)) :=
  ⟨by norm_num,
   fade_monotone 20 1 0 0 (by norm_num) (by norm_num) (le_refl 1)
     (le_refl 0) (by norm_num)⟩

/-- The periodic timers currently scheduled for a channel's fades, in
creation order, each identified by its per-tick step.  `fadeOut` /
`fadeIn` call `setInterval` and keep the returned handle only in a
callback-local `const int` (index.ts 281, 298); no channel field stores
it, so a later fade call has no reference to an earlier timer and
cannot clear it — starting a fade only adds a timer. -/
structure ChannelFades where
  intervals : List ℚ
  deriving Repr, DecidableEq

/-- The timer bookkeeping of one `fadeOut(ms)` / `fadeIn(ms)` call: a
fresh interval with step `fadeVpc ms` is scheduled; nothing is
cancelled. -/
def startFade (c : ChannelFades) (vpc : ℚ) : ChannelFades :=
  { intervals := c.intervals ++ [vpc] }

/-- **C2 evaluation.** Calling `fadeIn`/`fadeOut` while a previous fade
on the same channel is still in flight does NOT cancel the previous
periodic timer: after `fadeOut(1000)` followed by `fadeOut(2000)` on the
same channel, both intervals remain scheduled, so two fade state
machines concurrently mutate the same pre-fade gain — the
single-fade-per-channel invariant the spec REQUIRES does not hold in the
source. -/
theorem fade_call_stacks_timers :
    (startFade (startFade ⟨[]⟩ (fadeVpc 1000)) (fadeVpc 2000)).intervals
      = [fadeVpc 1000, fadeVpc 2000] ∧
    (startFade (startFade ⟨[]⟩ (fadeVpc 1000)) (fadeVpc 2000)).intervals.length
      = 2 := by
  constructor <;> simp [startFade]

/-- The scalar parameters of one `AudioChannel`'s processing units
(index.ts 94–146): the pre-fade input gain (`inputNode.gain`), the mute
gate (`outputNode.gain`), the volume stage (`gainNode.gain`), the
stereo panner's `pan`, the three EQ filters' `gain`s, and the string
`id` assigned by the owning mixer. -/
structure AudioChannel where
  inputGain : ℚ
  outputGain : ℚ
  gain : ℚ
  pan : ℚ
  lowEQ : ℚ
  midEQ : ℚ
  highEQ : ℚ
  id : String
  deriving Repr, DecidableEq

/-- The constructor's parameter values (index.ts 130–136): all gain
units at `1`, pan at `0`, all EQ gains at `0`, id `"N/A"` until the
mixer assigns one (line 106). -/
def AudioChannel.init : AudioChannel :=
  { inputGain := 1, outputGain := 1, gain := 1, pan := 0,
    lowEQ := 0, midEQ := 0, highEQ := 0, id := "N/A" }

/-- `set volume` (index.ts 217–219): writes `gainNode.gain.value` only. -/
def AudioChannel.setVolume (c : AudioChannel) (value : ℚ) : AudioChannel :=
  { c with gain := value }

/-- `set muted` (index.ts 266–268):
`this.outputNode.gain.value = status === true ? 0 : 1`. -/
def AudioChannel.setMuted (c : AudioChannel) (status : Bool) : AudioChannel :=
  { c with outputGain := if status = true then 0 else 1 }

/-- `get muted` (index.ts 271–273):
`return this.outputNode.gain.value > 0 ? false : true`. -/
def AudioChannel.getMuted (c : AudioChannel) : Bool :=
  if 0 < c.outputGain then false else true

/-- An `AudioMixer`: its ordered channel list and the master
`gainNode.gain` (created at gain `1` by `createGain`). -/
structure AudioMixer where
  channels : List AudioChannel
  masterGain : ℚ
  deriving Repr, DecidableEq

/-- A freshly constructed mixer (index.ts 29–33): no channels yet,
master gain unit at its default `1`. -/
def AudioMixer.create : AudioMixer :=
  { channels := [], masterGain := 1 }

/-- JavaScript's `a || b` on an optional string operand: `undefined`
and the empty string are falsy, any other string is returned as is. -/
def jsStringOr (s? : Option String) (dflt : String) : String :=
  match s? with
  | some s => if s = "" then dflt else s
  | none => dflt

/-- `AudioMixer.addChannel` (index.ts 39–44): construct a channel,
assign `channel.id = id || this.channels.length.toString()`, push it,
return it. -/
def AudioMixer.addChannel (m : AudioMixer) (id? : Option String) :
    AudioChannel × AudioMixer :=
  let channel :=
    { AudioChannel.init with id := jsStringOr id? (toString m.channels.length) }
  (channel, { m with channels := m.channels ++ [channel] })

/-- `AudioMixer.getChannel` (index.ts 50–53):
`const i = this.channels.findIndex( c => c.id === id ) ;
return this.channels[ i ] || null ;` — `findIndex` yields `-1` when no
channel matches, and `channels[-1]` is `undefined`, so the result is
`null` (here `none`). -/
def AudioMixer.getChannel (m : AudioMixer) (id : String) : Option AudioChannel :=
  match m.channels.findIdx? (fun c => c.id == id) with
  | some i => m.channels[i]?
  | none => none

/-- Indexing a list at the index found by `findIdx?` is exactly
`find?`: first-match lookup in insertion order. -/
lemma getElem?_findIdx? {α : Type} (p : α → Bool) (l : List α) :
    (match l.findIdx? p with
     | some i => l[i]?
     | none => none) = l.find? p := by
  induction l with
  | nil => simp
  | cons a l ih =>
    by_cases h : p a
    · simp [List.findIdx?_cons, h, List.find?_cons]
    · simp only [List.findIdx?_cons, h, Bool.false_eq_true, if_false,
        List.findIdx?_succ, List.find?_cons]
      cases hfi : l.findIdx? p with
      | none => simp [hfi] at ih; simp [ih]
      | some i =>
        simp [hfi] at ih
        simp [List.getElem?_cons_succ, ih]

/-- **C6.** On a fresh mixer, three `addChannel()` calls with no
explicit id assign the ids `"0"`, `"1"`, `"2"` in creation order, and
`getChannel "1"` then returns the second channel created. -/
theorem addChannel_default_ids (m : AudioMixer) (h : m = AudioMixer.create) :
    ((m.addChannel none).1.id = "0" ∧
     (((m.addChannel none).2.addChannel none).1.id = "1" ∧
      ((((m.addChannel none).2.addChannel none).2.addChannel none).1.id = "2" ∧
       ((((m.addChannel none).2.addChannel none).2.addChannel none).2.getChannel "1"
         = some ((m.addChannel none).2.addChannel none).1)))) := by
  subst h
  decide

/-- Witness for C6: the fresh mixer `AudioMixer.create`. -/
theorem addChannel_default_ids_witness :
    AudioMixer.create = AudioMixer.create ∧
    ((AudioMixer.create.addChannel none).1.id = "0" ∧
     (((AudioMixer.create.addChannel none).2.addChannel none).1.id = "1" ∧
      ((((AudioMixer.create.addChannel none).2.addChannel none).2.addChannel
          none).1.id = "2" ∧
       ((((AudioMixer.create.addChannel none).2.addChannel none).2.addChannel
           none).2.getChannel "1"
         = some ((AudioMixer.create.addChannel none).2.addChannel none).1)))) :=
  ⟨rfl, addChannel_default_ids AudioMixer.create rfl⟩

/-- **C7.** `muted = true`, then `volume = 0.7`, then `muted = false`
leaves the output gate at exactly `1` and the volume stage at exactly
`7/10`; moreover setting `muted` never touches the volume stage and
setting `volume` never touches the output gate, for every starting
channel state. -/
theorem mute_volume_independence (c : AudioChannel) (b : Bool) (v : ℚ) :
    ((((c.setMuted true).setVolume (7 / 10)).setMuted false).outputGain = 1 ∧
     (((c.setMuted true).setVolume (7 / 10)).setMuted false).gain = 7 / 10) ∧
    (c.setMuted b).gain = c.gain ∧
    (c.setVolume v).outputGain = c.outputGain := by
  refine ⟨⟨rfl, rfl⟩, rfl, rfl⟩

/-- **C9.** `getChannel` on an id matching no channel returns the
not-found value `none` — the lookup is total, it cannot throw — and in
general `getChannel` is first-match lookup in insertion order
(`List.find?`), which on several channels sharing an id returns the
earliest inserted one. -/
theorem getChannel_not_found_first_match (m : AudioMixer) (id : String) :
    ((∀ c ∈ m.channels, c.id ≠ id) → m.getChannel id = none) ∧
    m.getChannel id = m.channels.find? (fun c => c.id == id) := by
  have heq : m.getChannel id = m.channels.find? (fun c => c.id == id) :=
    getElem?_findIdx? _ m.channels
  refine ⟨?_, heq⟩
  intro hmiss
  rw [heq, List.find?_eq_none]
  intro c hc
  simpa using hmiss c hc

/-- A concrete mixer holding two channels that share the id `"a"`. -/
def mixerAA : AudioMixer :=
  { channels := [{ AudioChannel.init with id := "a" },
                 { AudioChannel.init with id := "a" }],
    masterGain := 1 }

/-- Witness for C9: on `mixerAA`, `getChannel "missing"` returns
`none`, and `getChannel` agrees with first-match `find?`. -/
theorem getChannel_not_found_first_match_witness :
    (∀ c ∈ mixerAA.channels, c.id ≠ "missing") ∧
    (((∀ c ∈ mixerAA.channels, c.id ≠ "missing") →
       mixerAA.getChannel "missing" = none) ∧
     mixerAA.getChannel "missing"
       = mixerAA.channels.find? (fun c => c.id == "missing")) :=
  ⟨by intro c hc; fin_cases hc <;> simp [AudioChannel.init, mixerAA],
   getChannel_not_found_first_match mixerAA "missing"⟩

/-- **C10.** `addChannel("")` with the empty string as explicit id does
not assign the id `""`: the JavaScript truthiness test `id || default`
treats `""` as absent, so the channel gets the index-based default id —
the call behaves exactly like `addChannel()` with no argument. -/
theorem addChannel_empty_id_defaults (m : AudioMixer) :
    (m.addChannel (some "")).1.id = toString m.channels.length ∧
    m.addChannel (some "") = m.addChannel none := by
  constructor
  · simp [AudioMixer.addChannel, jsStringOr]
  · simp [AudioMixer.addChannel, jsStringOr]

/-- The wiring state relevant to `AudioTrack.output` (index.ts
355–361): `chTracks` is channel `c`'s `tracks` array (tracks named by
index), and `trackRecv` is track `t`'s `sourceNode` receiver list —
the channels its single output port currently feeds
(`sourceNode.disconnect()` empties it, `sourceNode.connect(inputNode)`
adds one). -/
structure MusesGraph where
  chTracks : List (List ℕ)
  trackRecv : List (List ℕ)
  deriving Repr, DecidableEq

/-- `AudioTrack.output(channel)` (index.ts 355–361):
```
const connected = channel.tracks.findIndex( ( t ) => t === this ) ;
if( connected !== -1 ) { return true ; }
this.sourceNode.disconnect( ) ;
this.sourceNode.connect( channel.inputNode ) ;
channel.tracks.push( this ) ;
```
The returned `Bool` is `true` for the early `return true` of the
already-attached branch and `false` (JavaScript `undefined`) for the
fall-through.  Note the previous channel's `tracks` array is never
touched. -/
def trackOutput (g : MusesGraph) (t ch : ℕ) : Bool × MusesGraph :=
  let tracks := (g.chTracks[ch]?).getD []
  if tracks.contains t then (true, g)
  else
    (false,
     { chTracks := g.chTracks.set ch (tracks ++ [t]),
       trackRecv := g.trackRecv.set t [ch] })

/-- `AudioChannel.addTrack(track)` (index.ts 193–196): delegates to
`track.output(this)` and returns the channel. -/
def addTrack (g : MusesGraph) (t ch : ℕ) : MusesGraph :=
  (trackOutput g t ch).2

/-- `AudioChannel.input(source)` with an existing `AudioTrack`
(index.ts 200): delegates to `addTrack` and returns the track. -/
def inputTrack (g : MusesGraph) (t ch : ℕ) : MusesGraph :=
  addTrack g t ch

/-- `output` on a channel that already lists the track is the identity
and returns `true`. -/
lemma trackOutput_of_mem (g : MusesGraph) (t ch : ℕ)
    (hmem : ((g.chTracks[ch]?).getD []).contains t = true) :
    trackOutput g t ch = (true, g) := by
  unfold trackOutput
  have hm : t ∈ (g.chTracks[ch]?).getD [] := by simpa using hmem
  simp [hm]

/-- After `output`, the target channel exists and lists the track. -/
lemma trackOutput_mem_after (g : MusesGraph) (t ch : ℕ)
    (hch : ch < g.chTracks.length) :
    (((trackOutput g t ch).2.chTracks[ch]?).getD []).contains t = true := by
  unfold trackOutput
  by_cases hc : ((g.chTracks[ch]?).getD []).contains t
  · have hm : t ∈ (g.chTracks[ch]?).getD [] := by simpa using hc
    simp [hm, hc]
  · simp only [hc, Bool.false_eq_true, if_false]
    simp [List.getElem?_set_self hch]

/-- **C5 counterexample.** A track CAN appear in two channels' `tracks`
lists at once: in a graph with channels `0, 1` and track `0`, attaching
track `0` to channel `0` and then to channel `1` leaves both `tracks`
arrays containing the track — `output` reconnects the `sourceNode` to
the new channel (`trackRecv` becomes `[[1]]`) but never removes the
track from the previous channel's list. -/
theorem track_in_two_channel_lists :
    ((trackOutput (trackOutput ⟨[[], []], [[]]⟩ 0 0).2 0 1).2.chTracks
      = [[0], [0]] ∧
     (trackOutput (trackOutput ⟨[[], []], [[]]⟩ 0 0).2 0 1).2.trackRecv
      = [[1]]) ∧
    ((((trackOutput (trackOutput ⟨[[], []], [[]]⟩ 0 0).2 0 1).2.chTracks[0]?).getD
        []).contains 0 = true ∧
     (((trackOutput (trackOutput ⟨[[], []], [[]]⟩ 0 0).2 0 1).2.chTracks[1]?).getD
        []).contains 0 = true) := by
  decide

/-- **C5 (amended).** Attaching a track that is currently attached to
channel `c1` to a different channel `c2` reconnects the track's single
output port to `c2` alone (`trackRecv` at the track becomes `[c2]`),
but does NOT remove the track from `c1`'s `tracks` list: afterwards the
track appears in both channels' lists. -/
theorem track_reattach_keeps_old_list (g : MusesGraph) (t c1 c2 : ℕ)
    (h2 : c2 < g.chTracks.length) (ht : t < g.trackRecv.length)
    (hne : c1 ≠ c2)
    (hmem : ((g.chTracks[c1]?).getD []).contains t = true)
    (hnot : ((g.chTracks[c2]?).getD []).contains t = false) :
    ((trackOutput g t c2).2.trackRecv[t]?) = some [c2] ∧
    (((trackOutput g t c2).2.chTracks[c1]?).getD []).contains t = true ∧
    (((trackOutput g t c2).2.chTracks[c2]?).getD []).contains t = true := by
  refine ⟨?_, ?_, trackOutput_mem_after g t c2 h2⟩
  · unfold trackOutput
    simp only [hnot, Bool.false_eq_true, if_false]
    exact List.getElem?_set_self ht
  · unfold trackOutput
    simp only [hnot, Bool.false_eq_true, if_false]
    rw [List.getElem?_set_ne (Ne.symm hne)]
    exact hmem

/-- Witness for the amended C5: track `0` attached to channel `0` is
re-attached to channel `1`. -/
theorem track_reattach_keeps_old_list_witness :
    ((1 : ℕ) < 2 ∧ (0 : ℕ) < 1 ∧ (0 : ℕ) ≠ 1 ∧
     ((([[0], []] : List (List ℕ))[0]?).getD []).contains 0 = true ∧
     ((([[0], []] : List (List ℕ))[1]?).getD []).contains 0 = false) ∧
    (((trackOutput ⟨[[0], []], [[0]]⟩ 0 1).2.trackRecv[0]?) = some [1] ∧
     (((trackOutput ⟨[[0], []], [[0]]⟩ 0 1).2.chTracks[0]?).getD
        []).contains 0 = true ∧
     (((trackOutput ⟨[[0], []], [[0]]⟩ 0 1).2.chTracks[1]?).getD
        []).contains 0 = true) :=
  ⟨⟨by decide, by decide, by decide, by decide, by decide⟩,
   track_reattach_keeps_old_list ⟨[[0], []], [[0]]⟩ 0 0 1 (by decide)
     (by decide) (by decide) (by decide) (by decide)⟩

/-- **C8.** Attaching the same track to the same channel twice — by
`output`, or through its delegates `addTrack` and `input` — leaves the
state unchanged after the second call (in particular the channel's
`tracks` list keeps its length) and the second call takes the
already-attached early-return branch, signalling success (`true`). -/
theorem attach_idempotent (g : MusesGraph) (t ch : ℕ)
    (hch : ch < g.chTracks.length) :
    (trackOutput (trackOutput g t ch).2 t ch).1 = true ∧
    (trackOutput (trackOutput g t ch).2 t ch).2 = (trackOutput g t ch).2 ∧
    (((trackOutput (trackOutput g t ch).2 t ch).2.chTracks[ch]?).getD []).length
      = (((trackOutput g t ch).2.chTracks[ch]?).getD []).length ∧
    addTrack (trackOutput g t ch).2 t ch = (trackOutput g t ch).2 ∧
    inputTrack (trackOutput g t ch).2 t ch = (trackOutput g t ch).2 := by
  have h2 := trackOutput_of_mem (trackOutput g t ch).2 t ch
    (trackOutput_mem_after g t ch hch)
  refine ⟨?_, ?_, ?_, ?_, ?_⟩
  · rw [h2]
  · rw [h2]
  · rw [h2]
  · unfold addTrack
    rw [h2]
  · unfold inputTrack addTrack
    rw [h2]

/-- Witness for C8: track `0` attached twice to channel `0` of a
one-channel graph. -/
theorem attach_idempotent_witness :
    (0 : ℕ) < 1 ∧
    ((trackOutput (trackOutput ⟨[[]], [[]]⟩ 0 0).2 0 0).1 = true ∧
     (trackOutput (trackOutput ⟨[[]], [[]]⟩ 0 0).2 0 0).2
       = (trackOutput ⟨[[]], [[]]⟩ 0 0).2 ∧
     (((trackOutput (trackOutput ⟨[[]], [[]]⟩ 0 0).2 0 0).2.chTracks[0]?).getD
        []).length
       = (((trackOutput ⟨[[]], [[]]⟩ 0 0).2.chTracks[0]?).getD []).length ∧
     addTrack (trackOutput ⟨[[]], [[]]⟩ 0 0).2 0 0
       = (trackOutput ⟨[[]], [[]]⟩ 0 0).2 ∧
     inputTrack (trackOutput ⟨[[]], [[]]⟩ 0 0).2 0 0
       = (trackOutput ⟨[[]], [[]]⟩ 0 0).2) :=
  ⟨by decide, attach_idempotent ⟨[[]], [[]]⟩ 0 0 (by decide)⟩

end Muses
